import Mathlib

/-!
Verification of `src/PrayerApp/PrayerApp.py` (RenewalPrayerApp).

Shallow embedding of the program's core:
* `_format_phone_number` — pure string formatting (PrayerApp.py lines 17-27).
* `_read_csv_safe`, `load_schedule_from_csv`, `load_members_from_csv` — the
  CSV ingestion pipeline (lines 30-85).  The call to `pandas.read_csv` is
  modelled by `read_csv` below over a tokenized source; the modelled fragment
  of pandas behaviour is documented at `read_csv`.
* `State` (the Reflex session state, lines 90-192) — embedded as `AppState`
  with one Lean function per event handler.  Handlers that return a Reflex
  event (`rx.redirect`, `rx.toast.*`) return an `Option UiEvent`; filesystem
  effects of `submit_prayer_request` are made explicit as a list of written
  records, with the success/failure of the OS write supplied as a
  `WriteOutcome` parameter.

Python-to-Lean conventions: Python string truthiness `if not s` becomes
`s = ""` / `s.isEmpty`; list truthiness becomes `List.isEmpty`; `str.strip()`
becomes `pyStrip` (leading/trailing whitespace removed; the model does not
distinguish exotic Unicode whitespace); `str.isdigit` is modelled
by `Char.isDigit` (Python additionally accepts some non-ASCII digit
characters; no claim distinguishes them).
-/

namespace PrayerApp

/-- Python `str.isdigit` restricted to the ASCII digits `'0'`-`'9'`. -/
def pyIsDigit (c : Char) : Bool := c.isDigit

/-- Embedding of `_format_phone_number` (lines 17-27): remove every
non-digit character; if exactly 10 digits remain, return
`(AAA) BBB-CCCC` built from them; otherwise return the input unchanged. -/
def _format_phone_number (phone : String) : String :=
  let digits := phone.data.filter pyIsDigit
  if digits.length = 10 then
    String.mk (('(' :: digits.take 3) ++ ([')', ' '] ++ (digits.drop 3).take 3) ++ ('-' :: digits.drop 6))
  else
    phone

/-- A delimited source as `pandas.read_csv` receives it.  `content records`
is the tokenized file: one list of string fields per physical line, the
first line being the header row.  `missing` models `FileNotFoundError`,
`unreadable` models a decoding error. -/
inductive CsvSource where
  | missing : CsvSource
  | unreadable : CsvSource
  | content : List (List String) → CsvSource
deriving DecidableEq, Repr

/-- The default `na_values` markers of pandas: a field equal to one of these
is read as NaN (missing).  The empty field is among them. -/
def naValues : List String :=
  ["", "#N/A", "#N/A N/A", "#NA", "-1.#IND", "-1.#QNAN", "-NaN", "-nan",
   "1.#IND", "1.#QNAN", "<NA>", "N/A", "NA", "NULL", "NaN", "None",
   "n/a", "nan", "null"]

/-- One field under `pd.read_csv(path, dtype=str)`: an `na_values` marker
becomes NaN (`none`), anything else stays the literal string. -/
def parseField (f : String) : Option String :=
  if f ∈ naValues then none else some f

/-- One data row of width `w`: fields are parsed and a row shorter than the
header is padded with NaN, as pandas does. -/
def pdRow (w : Nat) (r : List String) : List (Option String) :=
  r.map parseField ++ List.replicate (w - r.length) none

/-- Model of the fragment of `pandas.read_csv(path, dtype=str)` behaviour
the program exercises:
* a missing or undecodable file raises (`FileNotFoundError` /
  `UnicodeDecodeError`), modelled as `Except.error`;
* an empty file raises `EmptyDataError`;
* the first line is the header row;
* the expected field count of data rows is fixed by the first data row:
  when that row has more fields than the header, pandas infers an
  implicit index from the extra leading columns (the behaviour
  `index_col=False` disables) — the frame still has the header's columns
  and `df.iterrows()` (line 41 of the source) yields only those, so the
  leading extra cells of each row are dropped;
* a data row with more fields than expected raises `ParserError`;
* a data row with fewer fields than expected is padded with NaN at the
  end, so the data columns beyond it are NaN;
* a field matching a default `na_values` marker is read as NaN.
In the returned pair, rows are the data-column cells only, as the
program's `iterrows` loop sees them.  The model does not implement
pandas's duplicate-header mangling (`a, a.1`) or `Unnamed: n` header
substitution; no claim involves those. -/
def read_csv : CsvSource → Except String (List String × List (List (Option String)))
  | .missing => .error "FileNotFoundError"
  | .unreadable => .error "UnicodeDecodeError"
  | .content [] => .error "EmptyDataError: No columns to parse from file"
  | .content (hdr :: data) =>
    let expected := max hdr.length (data.headD []).length
    if data.any (fun r => expected < r.length) then
      .error "ParserError: too many fields"
    else
      .ok (hdr, data.map (fun r => (pdRow expected r).drop (expected - hdr.length)))

/-- Line 42 of the source, per cell:
`str(cell) if pd.notna(cell) and cell != 'nan' else ""`. -/
def cellStr : Option String → String
  | none => ""
  | some s => if s = "nan" then "" else s

/-- Replace the literal field text `"nan"` by the empty field.  Used to
state that a source cell reading `"nan"` is indistinguishable from an
absent cell after ingestion. -/
def scrubNan (x : String) : String := if x = "nan" then "" else x

/-- Embedding of `_read_csv_safe` (lines 30-44): read the CSV (propagating
any exception), keep the headers as strings, and convert every cell with
`cellStr` (NaN and the literal string `"nan"` both become `""`). -/
def _read_csv_safe (src : CsvSource) : Except String (List String × List (List String)) :=
  (read_csv src).map (fun p => (p.1, p.2.map (List.map cellStr)))

/-- The hard-coded fallback dataset of `load_schedule_from_csv`
(lines 57-64). -/
def scheduleFallback : List String × List (List String) :=
  (["Date", "Event"],
   [["09/12/2025", "Opening CG Gathering"],
    ["09/19/2025", "Discussion"],
    ["Error", "Could not load schedule.csv - using fallback data"]])

/-- Embedding of `load_schedule_from_csv` (lines 47-64): return
`_read_csv_safe`'s result, or the fallback on any exception. -/
def load_schedule_from_csv (src : CsvSource) : List String × List (List String) :=
  match _read_csv_safe src with
  | .ok p => p
  | .error _ => scheduleFallback

/-- The hard-coded fallback dataset of `load_members_from_csv` (line 85). -/
def membersFallback : List String × List (List String) :=
  (["Name", "Role"], [])

/-- Lines 76-77, per row: if the Contact cell exists and is non-empty
(Python string truthiness), replace it with its formatted form. -/
def formatContact (ci : Nat) (row : List String) : List String :=
  if ci < row.length ∧ row.getD ci "" ≠ "" then
    row.set ci (_format_phone_number (row.getD ci ""))
  else
    row

/-- Embedding of `load_members_from_csv` (lines 67-85): on success, format
the `Contact` column (first occurrence, as Python's `headers.index`) when
present; on any exception return the fallback. -/
def load_members_from_csv (src : CsvSource) : List String × List (List String) :=
  match _read_csv_safe src with
  | .ok p =>
    if p.1.contains "Contact" then
      (p.1, p.2.map (formatContact (p.1.indexOf "Contact")))
    else
      p
  | .error _ => membersFallback

/-- A Reflex event returned by a handler: `rx.redirect(to)`,
`rx.toast.success(msg)` or `rx.toast.error(msg)`.  A Python handler that
falls off the end returns `None`, embedded as `none : Option UiEvent`. -/
inductive UiEvent where
  | redirect : String → UiEvent
  | toastSuccess : String → UiEvent
  | toastError : String → UiEvent
deriving DecidableEq, Repr

/-- Embedding of the `State` class fields (lines 90-108) with their
declared defaults, which form the initial session state. -/
structure AppState where
  password : String := ""
  show_error : Bool := false
  is_authenticated : Bool := false
  schedule_headers : List String := []
  schedule_rows : List (List String) := []
  members_headers : List String := []
  members_rows : List (List String) := []
  show_members : Bool := false
  show_schedule : Bool := true
  prayer_request_text : String := ""
deriving DecidableEq, Repr

/-- The initial session state: every field at its declared default. -/
def initState : AppState := {}

/-- The derived var `members_count` (lines 111-113). -/
def members_count (s : AppState) : Nat := s.members_rows.length

/-- Handler `toggle_members` (lines 116-118). -/
def toggle_members (s : AppState) : AppState :=
  { s with show_members := true, show_schedule := false }

/-- Handler `toggle_schedule` (lines 120-122). -/
def toggle_schedule (s : AppState) : AppState :=
  { s with show_members := false, show_schedule := true }

/-- Handler `set_prayer_request` (lines 125-126). -/
def set_prayer_request (s : AppState) (text : String) : AppState :=
  { s with prayer_request_text := text }

/-- Python `str.strip()`: remove leading and trailing whitespace. -/
def pyStrip (s : String) : String :=
  String.mk (((s.data.dropWhile Char.isWhitespace).reverse.dropWhile Char.isWhitespace).reverse)

/-- Outcome of the filesystem part of `submit_prayer_request`
(`os.makedirs` + `open` + `write`, lines 134-145): the OS either performs
the write or raises with some message. -/
inductive WriteOutcome where
  | ok : WriteOutcome
  | fail : String → WriteOutcome
deriving DecidableEq, Repr

/-- Embedding of `submit_prayer_request` (lines 128-151).  Returns the new
state, the list of durable records created (contents of each file written),
and the returned toast.  Blank-after-strip text is rejected before any I/O;
on a successful write the trimmed text is the entire record and the draft
is cleared; on an OS exception the `except` branch leaves the state
untouched and returns an error toast. -/
def submit_prayer_request (w : WriteOutcome) (s : AppState) :
    AppState × List String × Option UiEvent :=
  if pyStrip s.prayer_request_text = "" then
    (s, [], some (.toastError "Please enter a prayer request."))
  else
    match w with
    | .ok =>
      ({ s with prayer_request_text := "" }, [pyStrip s.prayer_request_text],
       some (.toastSuccess "Prayer request submitted and saved."))
    | .fail msg =>
      (s, [], some (.toastError ("Error saving prayer request: " ++ msg)))

/-- The two CSV sources `load_data_on_mount` reads from disk. -/
structure LoadEnv where
  scheduleSrc : CsvSource
  membersSrc : CsvSource

/-- Embedding of `load_data_on_mount` (lines 154-163).  Besides the new
state it returns how many times each underlying loader ran during this
call (0 or 1 each), making "triggers a load" observable.  A dataset is
(re)loaded when its headers list or its rows list is empty (Python
`not self.schedule_headers or not self.schedule_rows`). -/
def load_data_on_mount (env : LoadEnv) (s : AppState) : AppState × Nat × Nat :=
  let p1 :=
    if s.schedule_headers.isEmpty || s.schedule_rows.isEmpty then
      let hr := load_schedule_from_csv env.scheduleSrc
      ({ s with schedule_headers := hr.1, schedule_rows := hr.2 }, 1)
    else (s, 0)
  let p2 :=
    if p1.1.members_headers.isEmpty || p1.1.members_rows.isEmpty then
      let hr := load_members_from_csv env.membersSrc
      ({ p1.1 with members_headers := hr.1, members_rows := hr.2 }, 1)
    else (p1.1, 0)
  (p2.1, p1.2, p2.2)

/-- Handler `set_password` (lines 166-169): store the candidate; if the
error flag is set, clear it. -/
def set_password (s : AppState) (value : String) : AppState :=
  let s1 := { s with password := value }
  if s1.show_error then { s1 with show_error := false } else s1

/-- The configured secret (line 173). -/
def secretKeyword : String := "2ndstreet"

/-- Handler `submit_password` (lines 171-177): on exact match set
`is_authenticated` and redirect to `/home`; otherwise set `show_error`. -/
def submit_password (s : AppState) : AppState × Option UiEvent :=
  if s.password = secretKeyword then
    ({ s with is_authenticated := true }, some (.redirect "/home"))
  else
    ({ s with show_error := true }, none)

/-- Handler `handle_key_down` (lines 179-181). -/
def handle_key_down (s : AppState) (key : String) : AppState × Option UiEvent :=
  if key = "Enter" then submit_password s else (s, none)

/-- Handler `logout` (lines 183-187). -/
def logout (s : AppState) : AppState × Option UiEvent :=
  ({ s with is_authenticated := false, password := "", show_error := false },
   some (.redirect "/"))

/-- Handler `check_auth_and_redirect` (lines 189-192). -/
def check_auth_and_redirect (s : AppState) : AppState × Option UiEvent :=
  if ¬ s.is_authenticated then (s, some (.redirect "/")) else (s, none)

/-- One public operation of the session state, as the UI can invoke it
(every `State` event handler bound in the component tree, plus `logout`).
Handlers with external effects carry the environment they interact with. -/
inductive Action where
  | setPassword : String → Action
  | submitPassword : Action
  | handleKeyDown : String → Action
  | doLogout : Action
  | checkAuthAndRedirect : Action
  | toggleMembers : Action
  | toggleSchedule : Action
  | setPrayerRequest : String → Action
  | submitPrayerRequest : WriteOutcome → Action
  | loadDataOnMount : LoadEnv → Action

/-- The state reached after one public operation (events and effects
discarded; state component only). -/
def step (a : Action) (s : AppState) : AppState :=
  match a with
  | .setPassword v => set_password s v
  | .submitPassword => (submit_password s).1
  | .handleKeyDown k => (handle_key_down s k).1
  | .doLogout => (logout s).1
  | .checkAuthAndRedirect => (check_auth_and_redirect s).1
  | .toggleMembers => toggle_members s
  | .toggleSchedule => toggle_schedule s
  | .setPrayerRequest t => set_prayer_request s t
  | .submitPrayerRequest w => (submit_prayer_request w s).1
  | .loadDataOnMount env => (load_data_on_mount env s).1

/-- The session states reachable from the initial state by public
operations. -/
inductive Reachable : AppState → Prop where
  | init : Reachable initState
  | step : ∀ {s : AppState} (a : Action), Reachable s → Reachable (step a s)

/-- Auxiliary invariant: in the running session the authentication-error
flag is never set while the candidate password equals the secret (typing
the candidate clears the flag, line 168-169). -/
def SecretInv (s : AppState) : Prop :=
  s.password = secretKeyword → s.show_error = false

/-- Auxiliary invariant: exactly one of the two views is active. -/
def ViewInv (s : AppState) : Prop :=
  (s.show_members = true ∧ s.show_schedule = false) ∨
  (s.show_members = false ∧ s.show_schedule = true)

/-! ## Helper lemmas -/

/-- On a string with exactly 10 digit characters, `_format_phone_number`
takes the formatting branch. -/
theorem format_eq_of_ten (t : String) (h : (t.data.filter pyIsDigit).length = 10) :
    _format_phone_number t =
      String.mk (('(' :: (t.data.filter pyIsDigit).take 3) ++
        ([')', ' '] ++ ((t.data.filter pyIsDigit).drop 3).take 3) ++
        ('-' :: (t.data.filter pyIsDigit).drop 6)) := by
  simp only [_format_phone_number]
  rw [if_pos h]

/-- On a string whose digit count is not 10, `_format_phone_number` returns
its input unchanged. -/
theorem format_eq_of_ne (t : String) (h : ¬ (t.data.filter pyIsDigit).length = 10) :
    _format_phone_number t = t := by
  simp only [_format_phone_number]
  rw [if_neg h]

/-- Filtering the digits out of a formatted number recovers exactly the
digit list it was built from: the punctuation contributes no digits. -/
theorem filter_format_list (d : List Char) (hall : ∀ c ∈ d, pyIsDigit c = true) :
    List.filter pyIsDigit
      (('(' :: d.take 3) ++ ([')', ' '] ++ (d.drop 3).take 3) ++ ('-' :: d.drop 6)) = d := by
  have htake : List.filter pyIsDigit (d.take 3) = d.take 3 :=
    List.filter_eq_self.mpr fun c hc => hall c (List.take_subset 3 d hc)
  have hmid : List.filter pyIsDigit ((d.drop 3).take 3) = (d.drop 3).take 3 :=
    List.filter_eq_self.mpr fun c hc =>
      hall c (List.drop_subset 3 d (List.take_subset 3 (d.drop 3) hc))
  have hdrop : List.filter pyIsDigit (d.drop 6) = d.drop 6 :=
    List.filter_eq_self.mpr fun c hc => hall c (List.drop_subset 6 d hc)
  have hp : pyIsDigit '(' = false := rfl
  have hq : pyIsDigit ')' = false := rfl
  have hsp : pyIsDigit ' ' = false := rfl
  have hdash : pyIsDigit '-' = false := rfl
  simp only [List.filter_append, List.filter_cons, List.filter_nil, hp, hq,
    hsp, hdash, Bool.false_eq_true, if_false, List.nil_append, htake, hmid,
    hdrop, List.append_assoc]
  rw [show (6 : Nat) = 3 + 3 from rfl, ← List.drop_drop,
    List.take_append_drop, List.take_append_drop]

/-- The digit characters of `_format_phone_number t` are those of `t`
whenever `t` has exactly 10 of them. -/
theorem filter_pyIsDigit_format (t : String)
    (h : (t.data.filter pyIsDigit).length = 10) :
    (_format_phone_number t).data.filter pyIsDigit = t.data.filter pyIsDigit := by
  have hall : ∀ c ∈ t.data.filter pyIsDigit, pyIsDigit c = true :=
    fun c hc => (List.mem_filter.mp hc).2
  rw [format_eq_of_ten t h]
  exact filter_format_list (t.data.filter pyIsDigit) hall

/-- A padded row has exactly the header width whenever the raw row is not
over-wide. -/
theorem pdRow_length (w : Nat) (r : List String) (h : r.length ≤ w) :
    (pdRow w r).length = w := by
  simp only [pdRow, List.length_append, List.length_map, List.length_replicate]
  omega

/-- Every row produced by a successful `_read_csv_safe` has exactly the
header width. -/
theorem read_csv_safe_ok_widths (src : CsvSource) (hdr : List String)
    (rows : List (List String)) (h : _read_csv_safe src = .ok (hdr, rows)) :
    ∀ r ∈ rows, r.length = hdr.length := by
  match src with
  | .missing => simp [_read_csv_safe, read_csv, Except.map] at h
  | .unreadable => simp [_read_csv_safe, read_csv, Except.map] at h
  | .content [] => simp [_read_csv_safe, read_csv, Except.map] at h
  | .content (hd :: tl) =>
    simp only [_read_csv_safe, read_csv] at h
    by_cases hany : tl.any (fun r => max hd.length (tl.headD []).length < r.length)
    · rw [if_pos hany] at h
      simp [Except.map] at h
    · rw [if_neg hany] at h
      simp only [Except.map, Except.ok.injEq, Prod.mk.injEq] at h
      obtain ⟨hh, hrows⟩ := h
      intro r hr
      rw [← hrows] at hr
      rw [List.map_map] at hr
      obtain ⟨r0, hr0, hr0eq⟩ := List.mem_map.mp hr
      have hle : r0.length ≤ max hd.length (tl.headD []).length := by
        by_contra hgt
        exact hany (List.any_eq_true.mpr ⟨r0, hr0, by simpa using hgt⟩)
      have hmax : hd.length ≤ max hd.length (tl.headD []).length :=
        Nat.le_max_left _ _
      rw [← hr0eq, ← hh]
      simp only [Function.comp_apply, List.length_map, List.length_drop]
      rw [pdRow_length _ r0 hle]
      omega

/-- `formatContact` never changes the width of a row. -/
theorem formatContact_length (ci : Nat) (row : List String) :
    (formatContact ci row).length = row.length := by
  simp only [formatContact]
  split
  · exact List.length_set row ci _
  · rfl

/-- Every row of `load_schedule_from_csv`'s result has exactly the header
width, for every source. -/
theorem load_schedule_widths (src : CsvSource) :
    ∀ r ∈ (load_schedule_from_csv src).2,
      r.length = (load_schedule_from_csv src).1.length := by
  cases h : _read_csv_safe src with
  | ok p =>
    simp only [load_schedule_from_csv, h]
    exact read_csv_safe_ok_widths src p.1 p.2 (by rw [h])
  | error e =>
    simp only [load_schedule_from_csv, h]
    decide

/-- Every row of `load_members_from_csv`'s result has exactly the header
width, for every source. -/
theorem load_members_widths (src : CsvSource) :
    ∀ r ∈ (load_members_from_csv src).2,
      r.length = (load_members_from_csv src).1.length := by
  cases h : _read_csv_safe src with
  | ok p =>
    have hw := read_csv_safe_ok_widths src p.1 p.2 (by rw [h])
    by_cases hc : p.1.contains "Contact"
    · simp only [load_members_from_csv, h]
      rw [if_pos hc]
      intro r hr
      obtain ⟨r0, hr0, hr0eq⟩ := List.mem_map.mp hr
      rw [← hr0eq, formatContact_length]
      exact hw r0 hr0
    · simp only [load_members_from_csv, h]
      rw [if_neg hc]
      exact hw
  | error e =>
    simp only [load_members_from_csv, h]
    decide

/-- Scrubbing `"nan"` to the empty field does not change how a field is
read: both are NaN markers for pandas. -/
theorem parseField_scrubNan (x : String) : parseField (scrubNan x) = parseField x := by
  by_cases h : x = "nan"
  · rw [h]; decide
  · rw [scrubNan, if_neg h]

/-- Scrubbing `"nan"` cells to empty cells yields the same padded row. -/
theorem pdRow_scrubNan (w : Nat) (r : List String) :
    pdRow w (r.map scrubNan) = pdRow w r := by
  simp only [pdRow, List.map_map, List.length_map]
  congr 1
  exact List.map_congr_left fun a _ => parseField_scrubNan a

/-- Scrubbing `"nan"` cells to empty cells in the data rows does not change
the result of `read_csv` at all: row widths are preserved, so the expected
field count and the implicit-index offset are unchanged, and every
scrubbed field parses identically. -/
theorem read_csv_scrubNan (hdr : List String) (data : List (List String)) :
    read_csv (.content (hdr :: data.map (List.map scrubNan))) =
      read_csv (.content (hdr :: data)) := by
  cases data with
  | nil => rfl
  | cons r0 rest =>
    simp only [read_csv, List.map_cons, List.headD_cons, List.length_map]
    have hcond : ((r0.map scrubNan) :: rest.map (List.map scrubNan)).any
        (fun r => max hdr.length r0.length < r.length) =
        (r0 :: rest).any (fun r => max hdr.length r0.length < r.length) := by
      simp only [List.any_cons, List.any_map, List.length_map]
      have hfun : ((fun r => decide (max hdr.length r0.length < r.length)) ∘
          List.map scrubNan) =
          fun r : List String => decide (max hdr.length r0.length < r.length) := by
        funext r
        simp [Function.comp, List.length_map]
      rw [hfun]
    rw [hcond]
    by_cases hany : (r0 :: rest).any (fun r => max hdr.length r0.length < r.length)
    · rw [if_pos hany, if_pos hany]
    · rw [if_neg hany, if_neg hany]
      rw [pdRow_scrubNan, List.map_map]
      have h2 : rest.map ((fun r => (pdRow (max hdr.length r0.length) r).drop
            (max hdr.length r0.length - hdr.length)) ∘ List.map scrubNan) =
          rest.map (fun r => (pdRow (max hdr.length r0.length) r).drop
            (max hdr.length r0.length - hdr.length)) :=
        List.map_congr_left fun r _ => by
          simp only [Function.comp_apply, pdRow_scrubNan]
      rw [h2]

/-- Scrubbing `"nan"` cells to empty cells in the data rows does not change
the result of `_read_csv_safe` at all. -/
theorem read_csv_safe_scrubNan (hdr : List String) (data : List (List String)) :
    _read_csv_safe (.content (hdr :: data.map (List.map scrubNan))) =
      _read_csv_safe (.content (hdr :: data)) := by
  unfold _read_csv_safe
  rw [read_csv_scrubNan]

/-- Every public operation preserves `SecretInv`: no handler can leave the
error flag set while the candidate equals the secret. -/
theorem secretInv_step (a : Action) (s : AppState) (h : SecretInv s) :
    SecretInv (step a s) := by
  cases a with
  | setPassword v =>
    intro _
    simp only [step, set_password]
    split
    · rfl
    · next hcond => simpa using hcond
  | submitPassword =>
    intro hp
    simp only [step, submit_password] at hp ⊢
    by_cases hpw : s.password = secretKeyword
    · rw [if_pos hpw] at hp ⊢
      exact h hp
    · rw [if_neg hpw] at hp
      exact absurd hp hpw
  | handleKeyDown k =>
    intro hp
    simp only [step, handle_key_down] at hp ⊢
    by_cases hk : k = "Enter"
    · rw [if_pos hk] at hp ⊢
      simp only [submit_password] at hp ⊢
      by_cases hpw : s.password = secretKeyword
      · rw [if_pos hpw] at hp ⊢
        exact h hp
      · rw [if_neg hpw] at hp
        exact absurd hp hpw
    · rw [if_neg hk] at hp ⊢
      exact h hp
  | doLogout =>
    intro _
    rfl
  | checkAuthAndRedirect =>
    intro hp
    simp only [step, check_auth_and_redirect] at hp ⊢
    by_cases ha : ¬ s.is_authenticated = true
    · rw [if_pos ha] at hp ⊢; exact h hp
    · rw [if_neg ha] at hp ⊢; exact h hp
  | toggleMembers => exact h
  | toggleSchedule => exact h
  | setPrayerRequest t => exact h
  | submitPrayerRequest w =>
    intro hp
    simp only [step, submit_prayer_request] at hp ⊢
    by_cases ht : pyStrip s.prayer_request_text = ""
    · rw [if_pos ht] at hp ⊢; exact h hp
    · rw [if_neg ht] at hp ⊢
      cases w with
      | ok => exact h hp
      | fail msg => exact h hp
  | loadDataOnMount env =>
    intro hp
    simp only [step, load_data_on_mount] at hp ⊢
    by_cases h1 : s.schedule_headers.isEmpty || s.schedule_rows.isEmpty
    all_goals by_cases h2 : s.members_headers.isEmpty || s.members_rows.isEmpty
    all_goals simp only [h1, h2, if_true, if_false, Bool.false_eq_true] at hp ⊢
    all_goals exact h hp

/-- Every state reachable by the public operations satisfies
`SecretInv`. -/
theorem reachable_secretInv (s : AppState) (h : Reachable s) : SecretInv s := by
  induction h with
  | init => intro hp; exact absurd hp (by decide)
  | step a _ ih => exact secretInv_step a _ ih

/-- Every public operation preserves `ViewInv`: view exclusivity survives
every handler. -/
theorem viewInv_step (a : Action) (s : AppState) (h : ViewInv s) :
    ViewInv (step a s) := by
  cases a with
  | setPassword v =>
    simp only [ViewInv, step, set_password] at h ⊢
    split <;> exact h
  | submitPassword =>
    simp only [ViewInv, step, submit_password] at h ⊢
    split <;> exact h
  | handleKeyDown k =>
    simp only [ViewInv, step, handle_key_down, submit_password] at h ⊢
    split
    · split <;> exact h
    · exact h
  | doLogout => exact h
  | checkAuthAndRedirect =>
    simp only [ViewInv, step, check_auth_and_redirect] at h ⊢
    split <;> exact h
  | toggleMembers => exact Or.inl ⟨rfl, rfl⟩
  | toggleSchedule => exact Or.inr ⟨rfl, rfl⟩
  | setPrayerRequest t => exact h
  | submitPrayerRequest w =>
    simp only [ViewInv, step, submit_prayer_request] at h ⊢
    split
    · exact h
    · cases w <;> exact h
  | loadDataOnMount env =>
    simp only [ViewInv, step, load_data_on_mount] at h ⊢
    split <;> split <;> exact h

/-- Every state reachable by the public operations satisfies `ViewInv`. -/
theorem reachable_viewInv (s : AppState) (h : Reachable s) : ViewInv s := by
  induction h with
  | init => exact Or.inr ⟨rfl, rfl⟩
  | step a _ ih => exact viewInv_step a _ ih

/-- How many loads `load_data_on_mount` performs for each dataset, as a
function of which dataset lists are empty on entry. -/
theorem load_data_on_mount_counts (env : LoadEnv) (s : AppState) :
    (load_data_on_mount env s).2.1 =
      (if s.schedule_headers.isEmpty || s.schedule_rows.isEmpty then 1 else 0) ∧
    (load_data_on_mount env s).2.2 =
      (if s.members_headers.isEmpty || s.members_rows.isEmpty then 1 else 0) := by
  simp only [load_data_on_mount]
  by_cases h1 : s.schedule_headers.isEmpty || s.schedule_rows.isEmpty
  all_goals by_cases h2 : s.members_headers.isEmpty || s.members_rows.isEmpty
  all_goals simp [h1, h2]

/-! ## Claim theorems -/

/-- C2: whenever reading the source raises (missing file, unreadable file,
malformed structure), both dataset loads swallow the exception and return
exactly their fallback dataset, unmodified; and the missing, unreadable
and malformed sources do make the read raise. -/
theorem C2_load_failure_returns_fallback :
    (∀ src : CsvSource, (∃ e, _read_csv_safe src = .error e) →
      load_schedule_from_csv src = scheduleFallback ∧
      load_members_from_csv src = membersFallback) ∧
    (∃ e, _read_csv_safe .missing = .error e) ∧
    (∃ e, _read_csv_safe .unreadable = .error e) ∧
    (∃ e, _read_csv_safe (.content [["a", "b"], ["1", "2"], ["1", "2", "3"]]) = .error e) := by
  refine ⟨?_, ⟨"FileNotFoundError", rfl⟩, ⟨"UnicodeDecodeError", rfl⟩,
    ⟨"ParserError: too many fields", by rfl⟩⟩
  intro src ⟨e, he⟩
  constructor
  · simp only [load_schedule_from_csv, he]
  · simp only [load_members_from_csv, he]

/-- Witness for C2: a missing file makes both loads return their
fallbacks. -/
theorem C2_load_failure_returns_fallback_witness :
    load_schedule_from_csv .missing = scheduleFallback ∧
    load_members_from_csv .missing = membersFallback :=
  C2_load_failure_returns_fallback.1 .missing ⟨"FileNotFoundError", rfl⟩

/-- C3 counterexample: the claim says a row read with more cells than
headers is truncated to header length and returned.  On the source with
header `a,b` and rows `1,2` and `3,4,5`, the code instead fails the read
(pandas raises) and returns the fallback dataset: no truncated row
`["3", "4"]` is ever produced. -/
theorem C3_counterexample :
    load_schedule_from_csv (.content [["a", "b"], ["1", "2"], ["3", "4", "5"]]) =
      scheduleFallback ∧
    load_schedule_from_csv (.content [["a", "b"], ["1", "2"], ["3", "4", "5"]]) ≠
      (["a", "b"], [["1", "2"], ["3", "4"]]) := by
  constructor <;> decide

/-- C3 (amended): both loads are total and always return a dataset in
which every row has exactly as many cells as there are headers, and a row
read with fewer cells than expected is padded with empty strings; but
over-wide rows are never truncated to their leading header-many cells:
when the first data row is not wider than the header, a source containing
any row with more cells than the headers makes the read fail and the
fallback dataset is returned; when the first data row itself is wider,
pandas consumes the extra leading columns as an implicit index, so the
returned row loses its leading cells instead. -/
theorem C3_load_total_row_widths :
    (∀ src : CsvSource, ∀ r ∈ (load_schedule_from_csv src).2,
      r.length = (load_schedule_from_csv src).1.length) ∧
    (∀ src : CsvSource, ∀ r ∈ (load_members_from_csv src).2,
      r.length = (load_members_from_csv src).1.length) ∧
    load_schedule_from_csv (.content [["a", "b", "c"], ["1"]]) =
      (["a", "b", "c"], [["1", "", ""]]) ∧
    (∀ hdr r0 rest : _, r0.length ≤ hdr.length →
      ∀ r ∈ r0 :: rest, hdr.length < r.length →
      load_schedule_from_csv (.content (hdr :: r0 :: rest)) = scheduleFallback) ∧
    load_schedule_from_csv (.content [["a", "b"], ["1", "2", "3"]]) =
      (["a", "b"], [["2", "3"]]) ∧
    load_schedule_from_csv (.content [["a", "b"], ["1", "2", "3"]]) ≠
      (["a", "b"], [["1", "2"]]) := by
  refine ⟨load_schedule_widths, load_members_widths, by decide, ?_, by decide,
    by decide⟩
  intro hdr r0 rest h0 r hr hlen
  have hmax : max hdr.length (List.headD (r0 :: rest) []).length = hdr.length := by
    rw [List.headD_cons]
    exact max_eq_left h0
  have hany : (r0 :: rest).any
      (fun r => max hdr.length (List.headD (r0 :: rest) []).length < r.length)
        = true :=
    List.any_eq_true.mpr ⟨r, hr, by rw [hmax] at *; simpa using hlen⟩
  simp only [load_schedule_from_csv, _read_csv_safe, read_csv, hany, if_true,
    Except.map]

/-- Witness for C3 (amended): width invariance at a short-row source, and
the fallback at a source whose third line is over-wide. -/
theorem C3_load_total_row_widths_witness :
    (["x", "", ""] : List String).length =
      (load_schedule_from_csv (.content [["a", "b", "c"], ["x"]])).1.length ∧
    load_schedule_from_csv (.content [["a", "b"], ["1", "2"], ["9", "9", "9"]]) =
      scheduleFallback :=
  ⟨C3_load_total_row_widths.1 (.content [["a", "b", "c"], ["x"]]) ["x", "", ""] (by decide),
   C3_load_total_row_widths.2.2.2.1 ["a", "b"] ["1", "2"] [["9", "9", "9"]]
     (by decide) ["9", "9", "9"] (by decide) (by decide)⟩

/-- C10: during ingestion a cell whose text is exactly `"nan"` is replaced
by the empty string, exactly like a genuinely missing cell: scrubbing
every `"nan"` field to an empty field changes nothing in the result of
either load, and concretely a `"nan"` cell loads as `""`. -/
theorem C10_nan_cell_indistinguishable :
    (∀ hdr data : _,
      _read_csv_safe (.content (hdr :: data.map (List.map scrubNan))) =
        _read_csv_safe (.content (hdr :: data))) ∧
    (∀ hdr data : _,
      load_schedule_from_csv (.content (hdr :: data.map (List.map scrubNan))) =
        load_schedule_from_csv (.content (hdr :: data))) ∧
    (∀ hdr data : _,
      load_members_from_csv (.content (hdr :: data.map (List.map scrubNan))) =
        load_members_from_csv (.content (hdr :: data))) ∧
    cellStr (some "nan") = "" ∧
    cellStr none = "" ∧
    _read_csv_safe (.content [["a"], ["nan"]]) = .ok (["a"], [[""]]) := by
  refine ⟨read_csv_safe_scrubNan, ?_, ?_, rfl, rfl, by rfl⟩
  · intro hdr data
    simp only [load_schedule_from_csv, read_csv_safe_scrubNan]
  · intro hdr data
    simp only [load_members_from_csv, read_csv_safe_scrubNan]

/-- C7: for every input string, `_format_phone_number` strips every
non-digit character; if exactly 10 digits remain it returns them laid out
as `(AAA) BBB-CCCC`, and otherwise it returns the original string
unmodified; in particular on `"1234567890"`, `"123-456-7890"` and
`"12345"` it returns `"(123) 456-7890"`, `"(123) 456-7890"` and `"12345"`
respectively. -/
theorem C7_format_phone_number :
    (∀ s : String, (s.data.filter pyIsDigit).length = 10 →
      _format_phone_number s =
        String.mk (('(' :: (s.data.filter pyIsDigit).take 3) ++
          ([')', ' '] ++ ((s.data.filter pyIsDigit).drop 3).take 3) ++
          ('-' :: (s.data.filter pyIsDigit).drop 6))) ∧
    (∀ s : String, (s.data.filter pyIsDigit).length ≠ 10 →
      _format_phone_number s = s) ∧
    _format_phone_number "1234567890" = "(123) 456-7890" ∧
    _format_phone_number "123-456-7890" = "(123) 456-7890" ∧
    _format_phone_number "12345" = "12345" :=
  ⟨format_eq_of_ten, format_eq_of_ne, by decide, by decide, by decide⟩

/-- Witness for C7 at concrete inputs: a 10-digit string with separators is
formatted, a 2-digit string is returned unchanged. -/
theorem C7_format_phone_number_witness :
    _format_phone_number "415 867 5309" =
      String.mk (('(' :: (("415 867 5309" : String).data.filter pyIsDigit).take 3) ++
        ([')', ' '] ++ ((("415 867 5309" : String).data.filter pyIsDigit).drop 3).take 3) ++
        ('-' :: (("415 867 5309" : String).data.filter pyIsDigit).drop 6)) ∧
    _format_phone_number "12" = "12" :=
  ⟨C7_format_phone_number.1 "415 867 5309" (by decide),
   C7_format_phone_number.2.1 "12" (by decide)⟩

/-- C8: `_format_phone_number` is idempotent — applying it twice gives the
same result as applying it once, for every input string. -/
theorem C8_format_phone_number_idempotent (s : String) :
    _format_phone_number (_format_phone_number s) = _format_phone_number s := by
  by_cases h : (s.data.filter pyIsDigit).length = 10
  · have hfd := filter_pyIsDigit_format s h
    have h2 : ((_format_phone_number s).data.filter pyIsDigit).length = 10 := by
      rw [hfd]; exact h
    rw [format_eq_of_ten _ h2, hfd, ← format_eq_of_ten s h]
  · rw [format_eq_of_ne s h]
    exact format_eq_of_ne s h

/-- C1 counterexample: the claim quantifies over every session state and
says a matching `submit_password` clears the error flag.  On the state
with the correct candidate and the error flag set, the code leaves the
flag set: the match branch never touches `show_error`. -/
theorem C1_counterexample :
    ({ password := secretKeyword, show_error := true : AppState }).password
        = secretKeyword ∧
    ¬ (submit_password
        { password := secretKeyword, show_error := true }).1.show_error = false := by
  constructor <;> decide

/-- C1 (amended): in every reachable session state, `submit_password` with
the matching candidate sets `is_authenticated`, signals the redirect to
the protected area, and leaves the session with the error flag false —
not by clearing it, but because in reachable states the flag is already
false whenever the candidate matches; with a differing candidate it
leaves `is_authenticated` unchanged (hence false whenever it was false),
sets the error flag, and leaves the candidate unchanged. -/
theorem C1_submit_password (s : AppState) (hs : Reachable s) :
    (s.password = secretKeyword →
      (submit_password s).1.is_authenticated = true ∧
      (submit_password s).1.show_error = false ∧
      (submit_password s).2 = some (.redirect "/home")) ∧
    (s.password ≠ secretKeyword →
      (submit_password s).1.is_authenticated = s.is_authenticated ∧
      (submit_password s).1.show_error = true ∧
      (submit_password s).1.password = s.password ∧
      (submit_password s).2 = none) := by
  constructor
  · intro hp
    unfold submit_password
    rw [if_pos hp]
    exact ⟨rfl, reachable_secretInv s hs hp, rfl⟩
  · intro hp
    unfold submit_password
    rw [if_neg hp]
    exact ⟨rfl, rfl, rfl, rfl⟩

/-- Witness for C1: submitting the untouched empty candidate from the
initial state sets the error flag; submitting right after typing the
secret authenticates and redirects with the error flag false. -/
theorem C1_submit_password_witness :
    ((submit_password initState).1.is_authenticated = initState.is_authenticated ∧
     (submit_password initState).1.show_error = true ∧
     (submit_password initState).1.password = initState.password ∧
     (submit_password initState).2 = none) ∧
    ((submit_password (step (.setPassword secretKeyword) initState)).1.is_authenticated = true ∧
     (submit_password (step (.setPassword secretKeyword) initState)).1.show_error = false ∧
     (submit_password (step (.setPassword secretKeyword) initState)).2 =
       some (.redirect "/home")) :=
  ⟨(C1_submit_password initState Reachable.init).2 (by decide),
   (C1_submit_password (step (.setPassword secretKeyword) initState)
     (Reachable.step (.setPassword secretKeyword) Reachable.init)).1 (by decide)⟩

/-- C4: submitting a draft that is empty after trimming performs no
storage write, leaves the state untouched and returns the validation
toast; submitting a draft that is non-empty after trimming, when the OS
write succeeds, creates exactly one durable record whose entire contents
are the trimmed text and clears the draft to the empty string with a
success toast. -/
theorem C4_submit_prayer_request (s : AppState) (w : WriteOutcome) :
    (pyStrip s.prayer_request_text = "" →
      (submit_prayer_request w s).2.1 = [] ∧
      (submit_prayer_request w s).1 = s ∧
      (submit_prayer_request w s).2.2 =
        some (.toastError "Please enter a prayer request.")) ∧
    (pyStrip s.prayer_request_text ≠ "" →
      (submit_prayer_request .ok s).2.1 = [pyStrip s.prayer_request_text] ∧
      (submit_prayer_request .ok s).1.prayer_request_text = "" ∧
      (submit_prayer_request .ok s).2.2 =
        some (.toastSuccess "Prayer request submitted and saved.")) := by
  constructor
  · intro ht
    unfold submit_prayer_request
    rw [if_pos ht]
    exact ⟨rfl, rfl, rfl⟩
  · intro ht
    unfold submit_prayer_request
    rw [if_neg ht]
    exact ⟨rfl, rfl, rfl⟩

/-- Witness for C4: a whitespace-only draft is rejected without a write;
the draft `"  pray  "` is stored as exactly the record `"pray"` and
cleared. -/
theorem C4_submit_prayer_request_witness :
    ((submit_prayer_request .ok { prayer_request_text := "   " }).2.1 = [] ∧
     (submit_prayer_request .ok { prayer_request_text := "   " }).1 =
       { prayer_request_text := "   " } ∧
     (submit_prayer_request .ok { prayer_request_text := "   " }).2.2 =
       some (.toastError "Please enter a prayer request.")) ∧
    ((submit_prayer_request .ok { prayer_request_text := "  pray  " }).2.1 =
       [pyStrip "  pray  "] ∧
     (submit_prayer_request .ok { prayer_request_text := "  pray  " }).1.prayer_request_text = "" ∧
     (submit_prayer_request .ok { prayer_request_text := "  pray  " }).2.2 =
       some (.toastSuccess "Prayer request submitted and saved.")) :=
  ⟨(C4_submit_prayer_request { prayer_request_text := "   " } .ok).1 (by decide),
   (C4_submit_prayer_request { prayer_request_text := "  pray  " } .ok).2 (by decide)⟩

/-- C9: submission is atomic with respect to the draft: a validation
failure or a failing OS write leaves the draft text unchanged and returns
an error toast, and the draft changes only when the trimmed text is
non-empty and the write succeeds, in which case it is cleared to `""`. -/
theorem C9_submit_prayer_request_atomic (s : AppState) (w : WriteOutcome) :
    (pyStrip s.prayer_request_text = "" →
      (submit_prayer_request w s).1.prayer_request_text = s.prayer_request_text ∧
      ∃ m, (submit_prayer_request w s).2.2 = some (.toastError m)) ∧
    (∀ msg, w = .fail msg →
      (submit_prayer_request w s).1.prayer_request_text = s.prayer_request_text ∧
      ∃ m, (submit_prayer_request w s).2.2 = some (.toastError m)) ∧
    ((submit_prayer_request w s).1.prayer_request_text ≠ s.prayer_request_text →
      w = .ok ∧ pyStrip s.prayer_request_text ≠ "" ∧
      (submit_prayer_request w s).1.prayer_request_text = "") := by
  refine ⟨?_, ?_, ?_⟩
  · intro ht
    unfold submit_prayer_request
    rw [if_pos ht]
    exact ⟨rfl, "Please enter a prayer request.", rfl⟩
  · intro msg hw
    subst hw
    by_cases ht : pyStrip s.prayer_request_text = ""
    · unfold submit_prayer_request
      rw [if_pos ht]
      exact ⟨rfl, "Please enter a prayer request.", rfl⟩
    · unfold submit_prayer_request
      rw [if_neg ht]
      exact ⟨rfl, "Error saving prayer request: " ++ msg, rfl⟩
  · intro hch
    by_cases ht : pyStrip s.prayer_request_text = ""
    · refine absurd ?_ hch
      unfold submit_prayer_request
      rw [if_pos ht]
    · cases w with
      | ok =>
        refine ⟨rfl, ht, ?_⟩
        unfold submit_prayer_request
        rw [if_neg ht]
      | fail msg =>
        refine absurd ?_ hch
        unfold submit_prayer_request
        rw [if_neg ht]

/-- Witness for C9: a failing write (disk error) leaves the draft
`" keep me "` intact with an error toast; a blank draft is likewise kept;
and a successful write of a non-blank draft is the only change, clearing
it. -/
theorem C9_submit_prayer_request_atomic_witness :
    ((submit_prayer_request (.fail "disk full") { prayer_request_text := " keep me " }).1.prayer_request_text
        = " keep me " ∧
     ∃ m, (submit_prayer_request (.fail "disk full") { prayer_request_text := " keep me " }).2.2
        = some (.toastError m)) ∧
    ((submit_prayer_request .ok { prayer_request_text := " " }).1.prayer_request_text = " " ∧
     ∃ m, (submit_prayer_request .ok { prayer_request_text := " " }).2.2 = some (.toastError m)) ∧
    (WriteOutcome.ok = WriteOutcome.ok ∧ pyStrip " x " ≠ "" ∧
     (submit_prayer_request .ok { prayer_request_text := " x " }).1.prayer_request_text = "") :=
  ⟨(C9_submit_prayer_request_atomic { prayer_request_text := " keep me " }
      (.fail "disk full")).2.1 "disk full" rfl,
   (C9_submit_prayer_request_atomic { prayer_request_text := " " } .ok).1 (by decide),
   (C9_submit_prayer_request_atomic { prayer_request_text := " x " } .ok).2.2 (by decide)⟩

/-- C5 counterexample: with the members source missing, the first
`load_data_on_mount` performs a members load (the fallback has zero rows)
and the second call performs another, so two consecutive calls trigger two
underlying loads of the members dataset — not at most one. -/
theorem C5_counterexample :
    (load_data_on_mount ⟨.missing, .missing⟩ initState).2.2 = 1 ∧
    (load_data_on_mount ⟨.missing, .missing⟩
      (load_data_on_mount ⟨.missing, .missing⟩ initState).1).2.2 = 1 ∧
    ¬ ((load_data_on_mount ⟨.missing, .missing⟩ initState).2.2 +
       (load_data_on_mount ⟨.missing, .missing⟩
         (load_data_on_mount ⟨.missing, .missing⟩ initState).1).2.2 ≤ 1) := by
  refine ⟨by decide, by decide, by decide⟩

/-- C5 (amended): a second `load_data_on_mount` skips reloading a dataset
exactly when the first call left that dataset with non-empty headers and
non-empty rows; when a dataset's headers or rows are left empty (as the
members fallback and any zero-row source do), the second call reloads
it. -/
theorem C5_load_data_on_mount (env1 env2 : LoadEnv) (s : AppState) :
    (((load_data_on_mount env1 s).1.schedule_headers.isEmpty ||
      (load_data_on_mount env1 s).1.schedule_rows.isEmpty) = false →
      (load_data_on_mount env2 (load_data_on_mount env1 s).1).2.1 = 0) ∧
    (((load_data_on_mount env1 s).1.members_headers.isEmpty ||
      (load_data_on_mount env1 s).1.members_rows.isEmpty) = false →
      (load_data_on_mount env2 (load_data_on_mount env1 s).1).2.2 = 0) ∧
    (((load_data_on_mount env1 s).1.schedule_headers.isEmpty ||
      (load_data_on_mount env1 s).1.schedule_rows.isEmpty) = true →
      (load_data_on_mount env2 (load_data_on_mount env1 s).1).2.1 = 1) ∧
    (((load_data_on_mount env1 s).1.members_headers.isEmpty ||
      (load_data_on_mount env1 s).1.members_rows.isEmpty) = true →
      (load_data_on_mount env2 (load_data_on_mount env1 s).1).2.2 = 1) := by
  refine ⟨?_, ?_, ?_, ?_⟩ <;> intro h
  · rw [(load_data_on_mount_counts env2 _).1, h, if_neg]
    simp
  · rw [(load_data_on_mount_counts env2 _).2, h, if_neg]
    simp
  · rw [(load_data_on_mount_counts env2 _).1, h, if_pos rfl]
  · rw [(load_data_on_mount_counts env2 _).2, h, if_pos rfl]

/-- Witness for C5 (amended): after a first call with both sources
missing, the schedule dataset (whose fallback is non-empty) is not
reloaded, while the members dataset (whose fallback has zero rows) is. -/
theorem C5_load_data_on_mount_witness :
    (load_data_on_mount ⟨.missing, .missing⟩
      (load_data_on_mount ⟨.missing, .missing⟩ initState).1).2.1 = 0 ∧
    (load_data_on_mount ⟨.missing, .missing⟩
      (load_data_on_mount ⟨.missing, .missing⟩ initState).1).2.2 = 1 :=
  ⟨(C5_load_data_on_mount ⟨.missing, .missing⟩ ⟨.missing, .missing⟩ initState).1
      (by decide),
   (C5_load_data_on_mount ⟨.missing, .missing⟩ ⟨.missing, .missing⟩ initState).2.2.2
      (by decide)⟩

/-- C6: in every session state reachable from the initial state by the
public operations, exactly one of the Schedule and Members views is
active — never both, never neither — and each toggle deterministically
selects its target view and deselects the other, from any state. -/
theorem C6_view_exclusivity (s : AppState) (hs : Reachable s) :
    ((s.show_members = true ∧ s.show_schedule = false) ∨
     (s.show_members = false ∧ s.show_schedule = true)) ∧
    (∀ t : AppState, (toggle_members t).show_members = true ∧
      (toggle_members t).show_schedule = false) ∧
    (∀ t : AppState, (toggle_schedule t).show_members = false ∧
      (toggle_schedule t).show_schedule = true) :=
  ⟨reachable_viewInv s hs, fun _ => ⟨rfl, rfl⟩, fun _ => ⟨rfl, rfl⟩⟩

/-- Witness for C6 at the initial state and after one toggle to
Members. -/
theorem C6_view_exclusivity_witness :
    ((initState.show_members = true ∧ initState.show_schedule = false) ∨
     (initState.show_members = false ∧ initState.show_schedule = true)) ∧
    (((step .toggleMembers initState).show_members = true ∧
      (step .toggleMembers initState).show_schedule = false) ∨
     ((step .toggleMembers initState).show_members = false ∧
      (step .toggleMembers initState).show_schedule = true)) :=
  ⟨(C6_view_exclusivity initState Reachable.init).1,
   (C6_view_exclusivity (step .toggleMembers initState)
     (Reachable.step .toggleMembers Reachable.init)).1⟩

end PrayerApp
